import Mathlib

/-
Verification of the Excel Auto-Pilot orchestration pipeline.

Shallow embedding of the TypeScript sources of the repository:
  - services/geminiService.ts  (generateExcelEditCode: prompt/retry/backoff loop,
    fenced-code-block extraction, final user-facing error classification)
  - services/pyodideService.ts (runPythonTransformation: sandbox filesystem
    cleanup, script execution, output artifact retrieval)
  - App.tsx (latest variant: startTransformation / processFile / handleRetry
    pipeline, usage tracker with MAX_DAILY_USES = 50)

JavaScript strings are modelled as Lean `String`; `String.prototype.includes`
is modelled by list-infix search over the character data.  Host-environment
effects (the generation service, `Math.random`, `JSON.parse`, the Pyodide
virtual filesystem, the behaviour of the generated script) are passed in as
explicit parameters, so every definition stays executable.
-/

namespace ExcelAutoPilot

/-- Index of the first occurrence of `needle` in the haystack, starting the
count at `i`.  Models the leftmost-match rule of JavaScript regex search for
a literal pattern. -/
def firstIdxAux (needle : List Char) : List Char → Nat → Option Nat
  | [], i => if needle.isEmpty then some i else none
  | c :: cs, i =>
    if needle.isPrefixOf (c :: cs) then some i else firstIdxAux needle cs (i + 1)

/-- Index of the first occurrence of `needle` in `hay`, if any. -/
def firstIdx (needle hay : List Char) : Option Nat :=
  firstIdxAux needle hay 0

/-- Model of JavaScript `haystack.includes(needle)`: `needle` occurs as a
contiguous substring of `s`. -/
def containsSub (needle s : String) : Bool :=
  (firstIdx needle.data s.data).isSome

/-- Model of JavaScript `s.trim()` on character data: drop whitespace from
both ends. -/
def trimList (l : List Char) : List Char :=
  ((l.dropWhile fun c => c.isWhitespace).reverse.dropWhile
    fun c => c.isWhitespace).reverse

/-- Model of JavaScript `s.trim()`. -/
def trimStr (s : String) : String :=
  String.mk (trimList s.data)

/-- Model of JavaScript `s.toLowerCase()`: lower-case every character. -/
def toLowerStr (s : String) : String :=
  String.mk (s.data.map Char.toLower)

/-- Worker for `removeAllSub`; the fuel bounds the number of steps (one
step consumes at least one character, so the haystack length suffices) and
makes the recursion structural. -/
def removeAllSubFuel (needle : List Char) : Nat → List Char → List Char
  | 0, _ => []
  | _, [] => []
  | fuel + 1, c :: cs =>
    if needle.isPrefixOf (c :: cs) && !needle.isEmpty then
      removeAllSubFuel needle fuel (cs.drop (needle.length - 1))
    else
      c :: removeAllSubFuel needle fuel cs

/-- Model of JavaScript `s.replace(pat, "")` with a global literal pattern:
delete every (leftmost, non-overlapping) occurrence of `needle`. -/
def removeAllSub (needle l : List Char) : List Char :=
  removeAllSubFuel needle l.length l

/-- The opening marker of a python-tagged fenced code block. -/
def pythonFence : List Char := "```python".data

/-- A bare fence marker. -/
def bareFence : List Char := "```".data

/-- Content of the first `/```python([\s\S]*?)```/` match in the response
text: locate the leftmost `pythonFence`, then the next `bareFence` after it;
the captured group is the text strictly between the two markers. -/
def extractPythonBlock (text : String) : Option String :=
  match firstIdx pythonFence text.data with
  | none => none
  | some i =>
    match firstIdx bareFence (text.data.drop (i + pythonFence.length)) with
    | none => none
    | some j => some (String.mk ((text.data.drop (i + pythonFence.length)).take j))

/-- The fallback of the response parser: delete every occurrence of the
python-tagged marker, then every bare fence marker, then trim. -/
def stripFences (text : String) : String :=
  trimStr (String.mk (removeAllSub bareFence (removeAllSub pythonFence text.data)))

/-- Response parsing of `generateExcelEditCode` (geminiService.ts lines
71-75): when the first python-tagged block matches with a non-empty captured
group, return the group trimmed; otherwise (the JavaScript truthiness test
`codeMatch && codeMatch[1]` fails) strip all fence markers and trim. -/
def extractCode (text : String) : String :=
  match extractPythonBlock text with
  | some block => if block = "" then stripFences text else trimStr block
  | none => stripFences text

/-- Structured data of a caught generation-service error, after the field
extraction of geminiService.ts lines 81-83: `status` and `code` are the
resolved `error.status`/`error.code` values (coerced to strings where the
source applies `String(code)`), `message` is the resolved error text. -/
structure GenError where
  status : Option String
  code : Option String
  message : String
deriving DecidableEq, Repr

/-- Outcome of one service call: a response carrying `response.text` (which
may be absent or empty), or a thrown error. -/
inductive CallOutcome where
  | success (text : Option String)
  | failure (e : GenError)
deriving DecidableEq, Repr

/-- Message thrown when the response carries no text (geminiService.ts
line 69). -/
def emptyResponseMsg : String := "AIからの応答が空です。"

/-- The error object thrown for an empty response: a plain `Error` with no
status or code fields. -/
def emptyResponseError : GenError := ⟨none, none, emptyResponseMsg⟩

/-- Body of the `try` block for one attempt (geminiService.ts lines 58-75):
a thrown service error propagates; an absent or empty `response.text` raises
the empty-response error; otherwise the script is parsed out of the text. -/
def tryAttempt : CallOutcome → Except GenError String
  | .failure e => .error e
  | .success none => .error emptyResponseError
  | .success (some t) =>
    if t = "" then .error emptyResponseError else .ok (extractCode t)

/-- Retryability classification of a caught error (geminiService.ts lines
85-94), verbatim from the source disjunction. -/
def isRetryable (e : GenError) : Bool :=
  e.status == some "UNAVAILABLE" ||
  e.status == some "RESOURCE_EXHAUSTED" ||
  e.code == some "503" ||
  e.code == some "429" ||
  containsSub "503" e.message ||
  containsSub "429" e.message ||
  containsSub "overloaded" (toLowerStr e.message) ||
  containsSub "unavailable" (toLowerStr e.message) ||
  containsSub "resource_exhausted" (toLowerStr e.message)

/-- `maxRetries` of geminiService.ts line 55. -/
def maxRetries : Nat := 8

/-- Backoff delay of geminiService.ts line 98 for a retry after `attempt`
(0-indexed), with `rand` standing for the `Math.random()` sample in
`[0, 1)`; real arithmetic is modelled over `ℚ`. -/
def backoffMs (attempt : ℕ) (rand : ℚ) : ℚ :=
  (9 / 5 : ℚ) ^ attempt * 1500 + rand * 1000

/-- Expected value of `backoffMs attempt rand` over the uniform
`rand ∈ [0, 1)`. -/
def expectedBackoffMs (attempt : ℕ) : ℚ :=
  (9 / 5 : ℚ) ^ attempt * 1500 + 500

/-- Observable trace of the retry loop: how many service calls were made,
after which attempt indices a backoff sleep occurred, and the loop result
(the parsed script, or the `lastError` that fell out of the loop). -/
structure LoopRun where
  calls : Nat
  backoffs : List Nat
  result : Except GenError String
deriving Repr

/-- The `for (attempt = 0; attempt <= maxRetries; attempt++)` loop of
geminiService.ts lines 57-106.  `outcome i` is what the `i`-th service call
does; `fuel` counts the calls still permitted (at entry `attempt = 0`,
`fuel = maxRetries + 1`), so the source guard `attempt < maxRetries` becomes
`fuel ≠ 1`, i.e. the remaining fuel after this call is nonzero. -/
def genLoop (outcome : Nat → CallOutcome) : Nat → Nat → LoopRun
  | _, 0 => ⟨0, [], .error emptyResponseError⟩
  | attempt, fuel + 1 =>
    match tryAttempt (outcome attempt) with
    | .ok s => ⟨1, [], .ok s⟩
    | .error e =>
      if isRetryable e && fuel != 0 then
        let r := genLoop outcome (attempt + 1) fuel
        ⟨r.calls + 1, attempt :: r.backoffs, r.result⟩
      else
        ⟨1, [], .error e⟩

/-- The overload-specific user-facing message (geminiService.ts line 121). -/
def overloadMsg : String :=
  "AIサーバーが現在非常に混み合っています。Google側の無料枠制限により発生しています。1〜2分待ってから、下の「再試行」ボタンを押してください。"

/-- The quota-specific user-facing message (geminiService.ts line 125). -/
def quotaMsg : String :=
  "APIの利用制限(Quota)に達しました。しばらく時間を置いてから再度お試しください。"

/-- The token whose presence triggers the JSON-unwrap attempt on the final
message (geminiService.ts line 110); `\x7b` is the opening brace. -/
def jsonErrorKey : String := "\x7b\"error\""

/-- Final-message test selecting the overload message (line 120). -/
def overloadIndicated (m : String) : Bool :=
  containsSub "overloaded" (toLowerStr m) || containsSub "503" m ||
  containsSub "UNAVAILABLE" m

/-- Final-message test selecting the quota message (line 124). -/
def quotaIndicated (m : String) : Bool :=
  containsSub "429" m || containsSub "RESOURCE_EXHAUSTED" m

/-- The seed of the final message (geminiService.ts line 109):
`lastError.message || "不明なエラーが発生しました。"`. -/
def rawFinalMessage (e : GenError) : String :=
  if e.message = "" then "不明なエラーが発生しました。" else e.message

/-- The JSON-unwrap step of geminiService.ts lines 110-118.  `unwrapJson`
abstracts the host `match + JSON.parse` extraction of
`parsed.error?.message` (returning `none` when parsing fails or the field
is missing, which the source covers with `|| finalMessage` and the empty
`catch`). -/
def cleanMessage (unwrapJson : String → Option String) (raw : String) :
    String :=
  if containsSub jsonErrorKey raw then
    match unwrapJson raw with
    | some m => m
    | none => raw
  else raw

/-- The message-classification cascade of geminiService.ts lines 120-128. -/
def classifyFinal (fm : String) : String :=
  if overloadIndicated fm then overloadMsg
  else if quotaIndicated fm then quotaMsg
  else "エラー: " ++ fm

/-- Final error handling of geminiService.ts lines 108-128. -/
def finalThrow (unwrapJson : String → Option String) (e : GenError) : String :=
  classifyFinal (cleanMessage unwrapJson (rawFinalMessage e))

/-- Observable result of one call to `generateExcelEditCode`: service calls
made, backoff sleeps taken, and either the returned script or the thrown
message. -/
structure GenRun where
  calls : Nat
  backoffs : List Nat
  result : Except String String
deriving Repr

/-- `generateExcelEditCode` (geminiService.ts lines 26-129) with the service
and the host JSON parser supplied as parameters: run the retry loop from
attempt 0 with `maxRetries + 1` permitted calls, then, if the loop fell
through with an error, apply the final-message classification. -/
def generateExcelEditCode (unwrapJson : String → Option String)
    (outcome : Nat → CallOutcome) : GenRun :=
  ⟨(genLoop outcome 0 (maxRetries + 1)).calls,
   (genLoop outcome 0 (maxRetries + 1)).backoffs,
   match (genLoop outcome 0 (maxRetries + 1)).result with
   | .ok s => .ok s
   | .error e => .error (finalThrow unwrapJson e)⟩

/-- Byte payload of a file in the Pyodide virtual filesystem. -/
abbrev Bytes := List Nat

/-- The Pyodide virtual filesystem: each name maps to the bytes of the file
stored under it, if any. -/
abbrev FS := String → Option Bytes

/-- `pyodide.FS.writeFile name data`. -/
def FS.writeFile (name : String) (data : Bytes) (fs : FS) : FS :=
  fun n => if n = name then some data else fs n

/-- Removal of `name` from the filesystem. -/
def FS.eraseName (name : String) (fs : FS) : FS :=
  fun n => if n = name then none else fs n

/-- `pyodide.FS.unlink name`: deletes the file, throwing when it does not
exist. -/
def FS.unlink (name : String) (fs : FS) : Except String FS :=
  match fs name with
  | some _ => .ok (FS.eraseName name fs)
  | none => .error "ENOENT"

/-- The guarded cleanup `try { pyodide.FS.unlink(...) } catch(e) {}` of
pyodideService.ts line 223: a failed unlink is swallowed. -/
def tryUnlink (name : String) (fs : FS) : FS :=
  match FS.unlink name fs with
  | .ok fs2 => fs2
  | .error _ => fs

/-- The error thrown when the script finished but `output.xlsx` was not
created (pyodideService.ts line 237); `\x27` is the ASCII apostrophe. -/
def noOutputMsg : String :=
  "スクリプトは正常に終了しましたが、\x27output.xlsx\x27 が生成されませんでした。Pythonコード内でファイルの保存処理（output.xlsxへの書き出し）が行われなかった可能性があります。指示内容を見直してもう一度お試しください。"

/-- `runPythonTransformation` (pyodideService.ts lines 202-239).  `run`
abstracts `pyodide.runPythonAsync script`: given the filesystem state it
sees, the script either raises with a message or leaves a new filesystem
state.  The function writes the input bytes under the fixed input name,
removes a stale output file (swallowing a failed unlink), runs the script
(wrapping a raised error), then reads the fixed output name back or fails
with the dedicated no-output error. -/
def runPythonTransformation (fs : FS) (input : Bytes)
    (run : FS → Except String FS) : Except String Bytes :=
  match run (tryUnlink "output.xlsx" (FS.writeFile "input.xlsx" input fs)) with
  | .error m => .error ("実行エラー: " ++ m)
  | .ok fs3 =>
    match fs3 "output.xlsx" with
    | some d => .ok d
    | none => .error noOutputMsg

/-- `AppStatus` of types.ts. -/
inductive AppStatus where
  | IDLE
  | BOOTING_PYTHON
  | READING_FILE
  | ANALYZING_INSTRUCTION
  | GENERATING_CODE
  | EXECUTING_CODE
  | COMPLETED
  | ERROR
deriving DecidableEq, Repr

/-- `MAX_DAILY_USES` of App.tsx (latest variant, line 315). -/
def MAX_DAILY_USES : Int := 50

/-- The usage record persisted in local storage under the versioned key:
`\x7b date, count \x7d` as written by App.tsx. -/
structure UsageRecord where
  date : String
  count : Int
deriving DecidableEq, Repr

/-- The startup usage-loading effect (App.tsx lines 350-369): given the current
date string and the parsed stored record (`none` when the key is absent),
returns the record left in storage and the computed remaining uses.  A
stored record from another day is reset to `⟨today, 0⟩`; a same-day record
is left untouched and remaining is `max 0 (limit − count)`. -/
def loadUsage (today : String) (stored : Option UsageRecord) :
    UsageRecord × Int :=
  match stored with
  | some r =>
    if r.date = today then (r, max 0 (MAX_DAILY_USES - r.count))
    else (⟨today, 0⟩, MAX_DAILY_USES)
  | none => (⟨today, 0⟩, MAX_DAILY_USES)

/-- `consumeUsage` (App.tsx lines 371-377): recompute the used count from
the displayed remaining uses, increment, persist, and clamp the new
remaining at zero.  Returns the stored record and the new remaining. -/
def consumeUsage (today : String) (remaining : Int) : UsageRecord × Int :=
  let newUsed := MAX_DAILY_USES - remaining + 1
  (⟨today, newUsed⟩, max 0 (MAX_DAILY_USES - newUsed))

/-- Remaining uses after one `consumeUsage` call. -/
def consumeRemaining (remaining : Int) : Int :=
  max 0 (MAX_DAILY_USES - (MAX_DAILY_USES - remaining + 1))

/-- What `extractA1AndColumns` reports for an upload. -/
structure ExtractResult where
  a1 : String
  columns : List String
deriving DecidableEq, Repr

/-- The blank-instruction guard of App.tsx line 410:
`!a1 || a1.trim() === "" || a1 === "None"`. -/
def isBlankInstruction (a1 : String) : Bool :=
  a1 = "" || trimStr a1 = "" || a1 = "None"

/-- Error thrown for a blank instruction cell (App.tsx line 413). -/
def blankInstrMsg : String :=
  "ExcelファイルのA1セルに指示内容を入力してアップロードしてください。"

/-- Error shown when the daily limit is exhausted (App.tsx line 387). -/
def limitMsg : String :=
  "本日の生成回数の上限に達しました。明日またお試しください。"

/-- Observable outcome of one pipeline run: terminal status, number of
`consumeUsage` invocations, whether the Script Generator and the Sandboxed
Executor were invoked, the remaining uses afterwards, and the stored error
message if any. -/
structure PipeResult where
  status : AppStatus
  consumeCalls : Nat
  generatorCalled : Bool
  executorCalled : Bool
  remainingAfter : Int
  errorMsg : Option String
deriving DecidableEq, Repr

/-- `startTransformation` (App.tsx lines 403-456), with the collaborators
abstracted: `ext` is what `extractA1AndColumns` returns (or throws), `gen`
what `generateExcelEditCode` returns (or throws), `exec` what
`runPythonTransformation` returns (or throws).  The blank-instruction guard
throws before `consumeUsage` and before the generator; on the success path
`consumeUsage` runs exactly once, then generation, then execution.  The
function itself performs no remaining-uses check. -/
def startTransformation (remaining : Int) (ext : Except String ExtractResult)
    (gen : Except String String) (exec : Except String Unit) : PipeResult :=
  match ext with
  | .error m => ⟨.ERROR, 0, false, false, remaining, some m⟩
  | .ok r =>
    if isBlankInstruction r.a1 then
      ⟨.ERROR, 0, false, false, remaining, some blankInstrMsg⟩
    else
      match gen with
      | .error m => ⟨.ERROR, 1, true, false, consumeRemaining remaining, some m⟩
      | .ok _ =>
        match exec with
        | .error m =>
          ⟨.ERROR, 1, true, true, consumeRemaining remaining, some m⟩
        | .ok _ =>
          ⟨.COMPLETED, 1, true, true, consumeRemaining remaining, none⟩

/-- `processFile` (App.tsx lines 385-401): the upload path refuses entry
when no uses remain, otherwise resets per-upload state and delegates to
`startTransformation`. -/
def processFile (remaining : Int) (ext : Except String ExtractResult)
    (gen : Except String String) (exec : Except String Unit) : PipeResult :=
  if remaining ≤ 0 then
    ⟨.ERROR, 0, false, false, remaining, some limitMsg⟩
  else
    startTransformation remaining ext gen exec

/-- `handleRetry` (App.tsx lines 458-464): when an input file is held it
re-enters `startTransformation` directly — with no remaining-uses check.
Returns `none` when there is no input file (the handler does nothing). -/
def handleRetry (hasInputFile : Bool) (remaining : Int)
    (ext : Except String ExtractResult) (gen : Except String String)
    (exec : Except String Unit) : Option PipeResult :=
  if hasInputFile then some (startTransformation remaining ext gen exec)
  else none

/-! Helper lemmas shared between claims. -/

/-- The swallowed unlink always results in the removal of the file, whether or
not the file existed. -/
theorem tryUnlink_eq_eraseName (name : String) (fs : FS) :
    tryUnlink name fs = FS.eraseName name fs := by
  unfold tryUnlink FS.unlink
  cases h : fs name with
  | some d => rfl
  | none =>
    funext n
    simp only [FS.eraseName]
    by_cases hn : n = name
    · subst hn
      rw [if_pos rfl]
      exact h
    · rw [if_neg hn]

/-- The no-output error cannot coincide with a wrapped script error: the
two start with different characters. -/
theorem noOutput_ne_wrapped (m : String) :
    noOutputMsg ≠ "実行エラー: " ++ m := by
  intro h
  have h2 : noOutputMsg.data.head? = ("実行エラー: " ++ m).data.head? := by
    rw [h]
  rw [String.data_append] at h2
  have h3 : ("実行エラー: ".data ++ m.data).head? = some '実' := rfl
  have h4 : noOutputMsg.data.head? = some 'ス' := rfl
  rw [h3, h4] at h2
  exact absurd h2 (by decide)

/-! Claim theorems. -/

/-- C1: whenever the generated script runs without raising but leaves no
`output.xlsx`, `runPythonTransformation` fails with the dedicated no-output
error, which differs from every wrapped script-raised error; and whenever
`output.xlsx` does exist afterwards, its bytes are returned. -/
theorem claim_C1 (fs : FS) (input : Bytes) (run : FS → Except String FS)
    (fs3 : FS)
    (hrun : run (tryUnlink "output.xlsx" (FS.writeFile "input.xlsx" input fs))
      = .ok fs3) :
    (fs3 "output.xlsx" = none →
      runPythonTransformation fs input run = .error noOutputMsg ∧
      ∀ m : String, noOutputMsg ≠ "実行エラー: " ++ m) ∧
    (∀ d, fs3 "output.xlsx" = some d →
      runPythonTransformation fs input run = .ok d) := by
  unfold runPythonTransformation
  rw [hrun]
  constructor
  · intro hout
    simp only [hout]
    exact ⟨trivial, noOutput_ne_wrapped⟩
  · intro d hout
    simp only [hout]

/-- C1 witness: a run that produces no output file yields the no-output
error, and one that writes the output returns its bytes. -/
theorem claim_C1_witness :
    (runPythonTransformation (fun _ => none) [1, 2] (fun f => .ok f)
      = .error noOutputMsg ∧
     ∀ m : String, noOutputMsg ≠ "実行エラー: " ++ m) ∧
    runPythonTransformation (fun _ => none) [1, 2]
      (fun f => .ok (FS.writeFile "output.xlsx" [7] f)) = .ok [7] := by
  constructor
  · exact (claim_C1 (fun _ => none) [1, 2] (fun f => .ok f)
      (tryUnlink "output.xlsx"
        (FS.writeFile "input.xlsx" [1, 2] (fun _ => none))) rfl).1 (by decide)
  · exact (claim_C1 (fun _ => none) [1, 2]
      (fun f => .ok (FS.writeFile "output.xlsx" [7] f)) _ rfl).2 [7] (by decide)

/-- C2: an upload whose extracted instruction is empty, whitespace-only, or
the literal placeholder `"None"` reaches the ERROR state with the generator
never called and no usage unit consumed. -/
theorem claim_C2 (remaining : Int) (a1 : String) (cols : List String)
    (gen : Except String String) (exec : Except String Unit)
    (h : isBlankInstruction a1 = true) :
    (processFile remaining (.ok ⟨a1, cols⟩) gen exec).status = .ERROR ∧
    (processFile remaining (.ok ⟨a1, cols⟩) gen exec).consumeCalls = 0 ∧
    (processFile remaining (.ok ⟨a1, cols⟩) gen exec).generatorCalled
      = false := by
  unfold processFile
  split
  · exact ⟨rfl, rfl, rfl⟩
  · simp only [startTransformation]
    rw [if_pos h]
    exact ⟨rfl, rfl, rfl⟩

/-- C2 witness: the placeholder instruction `"None"` and a whitespace-only
instruction both fail before generation with no usage consumed. -/
theorem claim_C2_witness :
    ((processFile 50 (.ok ⟨"None", ["A"]⟩) (.ok "c") (.ok ())).status
        = .ERROR ∧
     (processFile 50 (.ok ⟨"None", ["A"]⟩) (.ok "c") (.ok ())).consumeCalls
        = 0 ∧
     (processFile 50 (.ok ⟨"None", ["A"]⟩) (.ok "c") (.ok ())).generatorCalled
        = false) ∧
    ((processFile 50 (.ok ⟨"  ", ["A"]⟩) (.ok "c") (.ok ())).status
        = .ERROR ∧
     (processFile 50 (.ok ⟨"  ", ["A"]⟩) (.ok "c") (.ok ())).consumeCalls
        = 0 ∧
     (processFile 50 (.ok ⟨"  ", ["A"]⟩) (.ok "c") (.ok ())).generatorCalled
        = false) :=
  ⟨claim_C2 50 "None" ["A"] (.ok "c") (.ok ()) (by decide),
   claim_C2 50 "  " ["A"] (.ok "c") (.ok ()) (by decide)⟩

/-- C3 counterexample: the manual-retry path invokes the Script Generator
and consumes a usage unit even when zero uses remain — the run completes
instead of being refused, so the zero-remaining gate does not hold on every
generator-invoking path. -/
theorem claim_C3_counterexample :
    (handleRetry true 0 (.ok ⟨"C列の値を2倍にする", ["A", "B", "C"]⟩)
        (.ok "code") (.ok ())).map
      (fun r => (r.generatorCalled, r.consumeCalls, r.status))
      = some (true, 1, .COMPLETED) := by
  decide

/-- C3 (amended): the zero-remaining gate holds on the upload path —
`processFile` with no remaining uses transitions directly to ERROR with the
generator never invoked and no usage consumed — but the manual-retry path
re-enters the pipeline without that check, so with a non-blank instruction
the generator is invoked and a usage unit consumed even at zero remaining. -/
theorem claim_C3_amended (remaining : Int) (hr : remaining ≤ 0)
    (ext : Except String ExtractResult) (gen : Except String String)
    (exec : Except String Unit) :
    processFile remaining ext gen exec
      = ⟨.ERROR, 0, false, false, remaining, some limitMsg⟩ ∧
    ∀ a1 cols, isBlankInstruction a1 = false →
      (handleRetry true remaining (.ok ⟨a1, cols⟩) gen exec).map
        (fun r => (r.generatorCalled, r.consumeCalls))
        = some (true, 1) := by
  constructor
  · unfold processFile
    rw [if_pos hr]
  · intro a1 cols hblank
    rcases gen with m | c
    · simp [handleRetry, startTransformation, hblank]
    · rcases exec with m | u
      · simp [handleRetry, startTransformation, hblank]
      · simp [handleRetry, startTransformation, hblank]

/-- C3 amended witness: at zero remaining the upload path refuses, while
the retry path still calls the generator. -/
theorem claim_C3_amended_witness :
    processFile 0 (.ok ⟨"x", ["A"]⟩) (.ok "c") (.ok ())
      = ⟨.ERROR, 0, false, false, 0, some limitMsg⟩ ∧
    (handleRetry true 0 (.ok ⟨"x", ["A"]⟩) (.ok "c") (.ok ())).map
      (fun r => (r.generatorCalled, r.consumeCalls)) = some (true, 1) := by
  have h := claim_C3_amended 0 (by decide) (.ok ⟨"x", ["A"]⟩) (.ok "c") (.ok ())
  exact ⟨h.1, h.2 "x" ["A"] (by decide)⟩

/-- C4: the backoff delay for retry attempt `n` equals `1.8^n × 1500` ms
plus a jitter in `[0, 1000)` ms, and the expected delay strictly increases
with `n`. -/
theorem claim_C4 (n : ℕ) (rand : ℚ) (h0 : 0 ≤ rand) (h1 : rand < 1) :
    (∃ j : ℚ, 0 ≤ j ∧ j < 1000 ∧
      backoffMs n rand = (9 / 5 : ℚ) ^ n * 1500 + j) ∧
    expectedBackoffMs n < expectedBackoffMs (n + 1) := by
  constructor
  · refine ⟨rand * 1000, by positivity, by nlinarith, rfl⟩
  · unfold expectedBackoffMs
    have hp : (0 : ℚ) < (9 / 5 : ℚ) ^ n := by positivity
    have hs : (9 / 5 : ℚ) ^ (n + 1) = (9 / 5 : ℚ) ^ n * (9 / 5) :=
      pow_succ _ _
    nlinarith [hp, hs]

/-- C4 witness at attempt 2 with random sample 1/2. -/
theorem claim_C4_witness :
    (∃ j : ℚ, 0 ≤ j ∧ j < 1000 ∧
      backoffMs 2 (1 / 2) = (9 / 5 : ℚ) ^ 2 * 1500 + j) ∧
    expectedBackoffMs 2 < expectedBackoffMs 3 :=
  claim_C4 2 (1 / 2) (by norm_num) (by norm_num)

/-- C8: a stored usage record from a different day is reset to
`⟨today, 0⟩` with the full limit remaining; a same-day record is kept and
remaining is `max 0 (limit − count)`; and re-loading the record left by a
load never resets again, so the reset happens exactly once per day
boundary. -/
theorem claim_C8 (today : String) (r : UsageRecord) :
    (r.date ≠ today →
      loadUsage today (some r) = (⟨today, 0⟩, MAX_DAILY_USES)) ∧
    (r.date = today →
      loadUsage today (some r) = (r, max 0 (MAX_DAILY_USES - r.count))) ∧
    (loadUsage today (some (loadUsage today (some r)).1)).1
      = (loadUsage today (some r)).1 := by
  refine ⟨?_, ?_, ?_⟩
  · intro h
    simp [loadUsage, h]
  · intro h
    simp [loadUsage, h]
  · by_cases h : r.date = today
    · simp [loadUsage, h]
    · simp [loadUsage, h]

/-- C8 witness: a day-boundary crossing resets once; a same-day record is
kept with remaining `max 0 (50 − count)`. -/
theorem claim_C8_witness :
    (loadUsage "Tue Oct 07 2025" (some ⟨"Mon Oct 06 2025", 12⟩)
       = (⟨"Tue Oct 07 2025", 0⟩, MAX_DAILY_USES)) ∧
    (loadUsage "Tue Oct 07 2025" (some ⟨"Tue Oct 07 2025", 12⟩)
       = (⟨"Tue Oct 07 2025", 12⟩, max 0 (MAX_DAILY_USES - 12))) ∧
    (loadUsage "Tue Oct 07 2025"
        (some (loadUsage "Tue Oct 07 2025"
          (some ⟨"Mon Oct 06 2025", 12⟩)).1)).1
      = (loadUsage "Tue Oct 07 2025" (some ⟨"Mon Oct 06 2025", 12⟩)).1 :=
  ⟨(claim_C8 "Tue Oct 07 2025" ⟨"Mon Oct 06 2025", 12⟩).1 (by decide),
   (claim_C8 "Tue Oct 07 2025" ⟨"Tue Oct 07 2025", 12⟩).2.1 rfl,
   (claim_C8 "Tue Oct 07 2025" ⟨"Mon Oct 06 2025", 12⟩).2.2⟩

/-- C9: removing a missing `output.xlsx` is an FS-level error, but the
guarded cleanup swallows it and always yields the state with the file
removed, and a pre-existing `output.xlsx` never changes the outcome of
`runPythonTransformation`. -/
theorem claim_C9 (fs : FS) (input : Bytes) (d : Bytes)
    (run : FS → Except String FS) :
    (fs "output.xlsx" = none →
      FS.unlink "output.xlsx" fs = .error "ENOENT") ∧
    tryUnlink "output.xlsx" fs = FS.eraseName "output.xlsx" fs ∧
    runPythonTransformation (FS.writeFile "output.xlsx" d fs) input run
      = runPythonTransformation fs input run := by
  refine ⟨?_, tryUnlink_eq_eraseName _ _, ?_⟩
  · intro h
    unfold FS.unlink
    rw [h]
  · unfold runPythonTransformation
    rw [tryUnlink_eq_eraseName, tryUnlink_eq_eraseName]
    have hfs : FS.eraseName "output.xlsx"
        (FS.writeFile "input.xlsx" input (FS.writeFile "output.xlsx" d fs))
        = FS.eraseName "output.xlsx" (FS.writeFile "input.xlsx" input fs) := by
      funext n
      simp only [FS.eraseName, FS.writeFile]
      by_cases h1 : n = "output.xlsx"
      · simp [h1]
      · by_cases h2 : n = "input.xlsx"
        · simp [h1, h2]
        · simp [h1, h2]
    rw [hfs]

/-- C9 witness: with an empty filesystem the raw unlink errors, the guarded
cleanup still proceeds, and a stale output file does not affect the run. -/
theorem claim_C9_witness :
    (FS.unlink "output.xlsx" (fun _ => none) = .error "ENOENT") ∧
    tryUnlink "output.xlsx" (fun _ => none)
      = FS.eraseName "output.xlsx" (fun _ => none) ∧
    runPythonTransformation
        (FS.writeFile "output.xlsx" [9] (fun _ => none)) [1] (fun f => .ok f)
      = runPythonTransformation (fun _ => none) [1] (fun f => .ok f) :=
  ⟨(claim_C9 (fun _ => none) [1] [9] (fun f => .ok f)).1 rfl,
   (claim_C9 (fun _ => none) [1] [9] (fun f => .ok f)).2.1,
   (claim_C9 (fun _ => none) [1] [9] (fun f => .ok f)).2.2⟩

/-- A loop run with at least one permitted call makes at least one service
call. -/
theorem genLoop_calls_pos (outcome : Nat → CallOutcome) (attempt fuel : Nat)
    (h : 1 ≤ fuel) : 1 ≤ (genLoop outcome attempt fuel).calls := by
  cases fuel with
  | zero => omega
  | succ f =>
    unfold genLoop
    cases htry : tryAttempt (outcome attempt) with
    | ok s => simp
    | error e =>
      by_cases hc : (isRetryable e && f != 0) = true
      · simp [hc]
      · simp [hc]

/-- The retryability test spelled out as the disjunction of its clauses. -/
theorem isRetryable_eq_true_iff (e : GenError) :
    isRetryable e = true ↔
      (e.status = some "UNAVAILABLE" ∨ e.status = some "RESOURCE_EXHAUSTED" ∨
       e.code = some "503" ∨ e.code = some "429" ∨
       containsSub "503" e.message = true ∨
       containsSub "429" e.message = true ∨
       containsSub "overloaded" (toLowerStr e.message) = true ∨
       containsSub "unavailable" (toLowerStr e.message) = true ∨
       containsSub "resource_exhausted" (toLowerStr e.message) = true) := by
  simp only [isRetryable, Bool.or_eq_true, beq_iff_eq]
  tauto

/-- C5: after the call at attempt `i` (0-indexed, `i ≤ 8`) raises error `e`,
the loop performs a further service call if and only if the attempt ceiling
has not been reached and `e` matches the retryable patterns — status
UNAVAILABLE or RESOURCE_EXHAUSTED, code 503 or 429, or a message containing
503, 429, or the case-insensitive substrings overloaded, unavailable, or
resource_exhausted; otherwise it stops at once with no further calls. -/
theorem claim_C5 (outcome : Nat → CallOutcome) (i : Nat) (e : GenError)
    (hi : i ≤ 8) (he : tryAttempt (outcome i) = .error e) :
    ((i < 8 ∧
      (e.status = some "UNAVAILABLE" ∨ e.status = some "RESOURCE_EXHAUSTED" ∨
       e.code = some "503" ∨ e.code = some "429" ∨
       containsSub "503" e.message = true ∨
       containsSub "429" e.message = true ∨
       containsSub "overloaded" (toLowerStr e.message) = true ∨
       containsSub "unavailable" (toLowerStr e.message) = true ∨
       containsSub "resource_exhausted" (toLowerStr e.message) = true)) →
      2 ≤ (genLoop outcome i (9 - i)).calls) ∧
    (¬(i < 8 ∧
      (e.status = some "UNAVAILABLE" ∨ e.status = some "RESOURCE_EXHAUSTED" ∨
       e.code = some "503" ∨ e.code = some "429" ∨
       containsSub "503" e.message = true ∨
       containsSub "429" e.message = true ∨
       containsSub "overloaded" (toLowerStr e.message) = true ∨
       containsSub "unavailable" (toLowerStr e.message) = true ∨
       containsSub "resource_exhausted" (toLowerStr e.message) = true)) →
      (genLoop outcome i (9 - i)).calls = 1) := by
  have hfuel : 9 - i = (8 - i) + 1 := by omega
  rw [hfuel]
  constructor
  · rintro ⟨hlt, hdisj⟩
    have hcond : (isRetryable e && (8 - i) != 0) = true := by
      rw [Bool.and_eq_true]
      refine ⟨(isRetryable_eq_true_iff e).mpr hdisj, ?_⟩
      simp only [ne_eq, bne_iff_ne]
      omega
    unfold genLoop
    simp only [he, hcond, if_true]
    have hpos := genLoop_calls_pos outcome (i + 1) (8 - i) (by omega)
    omega
  · intro hn
    have hcond : (isRetryable e && (8 - i) != 0) = false := by
      cases hr : isRetryable e with
      | false => simp
      | true =>
        have hdisj := (isRetryable_eq_true_iff e).mp hr
        have h8 : ¬ i < 8 := fun hlt => hn ⟨hlt, hdisj⟩
        have hz : 8 - i = 0 := by omega
        simp [hz]
    unfold genLoop
    simp [he, hcond]

/-- C5 witness: a message matching `overloaded` at attempt 0 triggers a
further call; a non-matching message at attempt 3 stops the loop with a
single call. -/
theorem claim_C5_witness :
    2 ≤ (genLoop (fun _ => .failure ⟨none, none, "overloaded"⟩)
      0 (9 - 0)).calls ∧
    (genLoop (fun _ => .failure ⟨none, none, "parse error"⟩)
      3 (9 - 3)).calls = 1 := by
  constructor
  · exact (claim_C5 (fun _ => .failure ⟨none, none, "overloaded"⟩) 0
      ⟨none, none, "overloaded"⟩ (by omega) rfl).1 ⟨by omega, by decide⟩
  · exact (claim_C5 (fun _ => .failure ⟨none, none, "parse error"⟩) 3
      ⟨none, none, "parse error"⟩ (by omega) rfl).2 (by decide)

/-- C10: an absent or empty response text raises the empty-response error,
which matches none of the retryable patterns, so the loop stops after that
one call with no backoff sleep, and the function throws the generic final
message built from the empty-response text. -/
theorem claim_C10 (unwrapJson : String → Option String)
    (outcome : Nat → CallOutcome) (t : Option String)
    (h0 : outcome 0 = .success t) (ht : t = none ∨ t = some "") :
    (generateExcelEditCode unwrapJson outcome).calls = 1 ∧
    (generateExcelEditCode unwrapJson outcome).backoffs = [] ∧
    (generateExcelEditCode unwrapJson outcome).result
      = .error ("エラー: " ++ emptyResponseMsg) ∧
    isRetryable emptyResponseError = false := by
  have htry : tryAttempt (outcome 0) = .error emptyResponseError := by
    rw [h0]
    rcases ht with h | h <;> subst h <;> rfl
  have hret : isRetryable emptyResponseError = false := by decide
  have hloop : genLoop outcome 0 (maxRetries + 1)
      = ⟨1, [], .error emptyResponseError⟩ := by
    unfold genLoop
    simp [htry, hret]
  have hft : finalThrow unwrapJson emptyResponseError
      = "エラー: " ++ emptyResponseMsg := rfl
  unfold generateExcelEditCode
  rw [hloop]
  refine ⟨rfl, rfl, ?_, hret⟩
  show Except.error (finalThrow unwrapJson emptyResponseError)
      = Except.error ("エラー: " ++ emptyResponseMsg)
  rw [hft]

/-- C10 witness: a service call whose response carries no text at all. -/
theorem claim_C10_witness :
    (generateExcelEditCode (fun _ => none) (fun _ => .success none)).calls
      = 1 ∧
    (generateExcelEditCode (fun _ => none) (fun _ => .success none)).backoffs
      = [] ∧
    (generateExcelEditCode (fun _ => none) (fun _ => .success none)).result
      = .error ("エラー: " ++ emptyResponseMsg) ∧
    isRetryable emptyResponseError = false :=
  claim_C10 (fun _ => none) (fun _ => .success none) none rfl (Or.inl rfl)

/-- When every attempt up to the ceiling fails with a retryable error, a
loop started at attempt `i` with fuel `9 - i`-style accounting exhausts its
fuel and falls out with the error of attempt 8. -/
theorem genLoop_all_retryable (outcome : Nat → CallOutcome)
    (e : Nat → GenError)
    (h : ∀ j, j ≤ 8 →
      tryAttempt (outcome j) = .error (e j) ∧ isRetryable (e j) = true) :
    ∀ fuel i, i + fuel = 9 → 1 ≤ fuel →
      (genLoop outcome i fuel).calls = fuel ∧
      (genLoop outcome i fuel).result = .error (e 8) := by
  intro fuel
  induction fuel with
  | zero =>
    intro i h9 h1
    omega
  | succ f ih =>
    intro i h9 h1
    have hi : i ≤ 8 := by omega
    obtain ⟨htry, hret⟩ := h i hi
    unfold genLoop
    by_cases hf : f = 0
    · subst hf
      have hi8 : i = 8 := by omega
      subst hi8
      simp [htry, hret]
    · have hcond : (isRetryable (e i) && f != 0) = true := by
        simp [hret, hf]
      obtain ⟨ihc, ihr⟩ := ih (i + 1) (by omega) (by omega)
      simp only [htry, hcond, if_true]
      exact ⟨by simp [ihc], by simp [ihr]⟩

/-- C6 counterexample: with every service call failing with an error that is
retryable through its `status` field (`RESOURCE_EXHAUSTED`) but whose
message text is `"boom"`, the function does stop after nine calls, yet the
raised message is the generic one — neither the quota-specific nor the
overload-specific message — because the final classification inspects only
the message text, not the status. -/
theorem claim_C6_counterexample :
    isRetryable ⟨some "RESOURCE_EXHAUSTED", none, "boom"⟩ = true ∧
    (generateExcelEditCode (fun _ => none)
      (fun _ => .failure ⟨some "RESOURCE_EXHAUSTED", none, "boom"⟩)).calls
      = 9 ∧
    (generateExcelEditCode (fun _ => none)
      (fun _ => .failure ⟨some "RESOURCE_EXHAUSTED", none, "boom"⟩)).result
      = .error ("エラー: boom") ∧
    "エラー: boom" ≠ quotaMsg ∧ "エラー: boom" ≠ overloadMsg :=
  ⟨by decide, by decide, rfl, by decide, by decide⟩

/-- C6 (amended): when all nine permitted calls fail with retryable errors,
the loop stops after the ninth call; the thrown message is then determined
by the message text of the final error (after the JSON-unwrap step): the
overload message when the text matches overloaded/503/UNAVAILABLE, else the
quota message when it matches 429/RESOURCE_EXHAUSTED, else a generic
message; the overload and quota messages are distinct. -/
theorem claim_C6_amended (unwrapJson : String → Option String)
    (outcome : Nat → CallOutcome) (e : Nat → GenError)
    (h : ∀ j, j ≤ 8 →
      tryAttempt (outcome j) = .error (e j) ∧ isRetryable (e j) = true)
    (hm : (e 8).message ≠ "")
    (hjson : containsSub jsonErrorKey (e 8).message = false) :
    (generateExcelEditCode unwrapJson outcome).calls = 9 ∧
    (overloadIndicated (e 8).message = true →
      (generateExcelEditCode unwrapJson outcome).result
        = .error overloadMsg) ∧
    (overloadIndicated (e 8).message = false →
      quotaIndicated (e 8).message = true →
      (generateExcelEditCode unwrapJson outcome).result = .error quotaMsg) ∧
    (overloadIndicated (e 8).message = false →
      quotaIndicated (e 8).message = false →
      (generateExcelEditCode unwrapJson outcome).result
        = .error ("エラー: " ++ (e 8).message)) ∧
    overloadMsg ≠ quotaMsg := by
  obtain ⟨hc, hr⟩ := genLoop_all_retryable outcome e h 9 0 rfl (by omega)
  have hraw : rawFinalMessage (e 8) = (e 8).message := by
    unfold rawFinalMessage
    rw [if_neg hm]
  have hclean : cleanMessage unwrapJson (e 8).message = (e 8).message := by
    unfold cleanMessage
    simp [hjson]
  have hres : (generateExcelEditCode unwrapJson outcome).result
      = .error (classifyFinal (e 8).message) := by
    unfold generateExcelEditCode
    have h9 : maxRetries + 1 = 9 := rfl
    rw [h9, hr]
    simp [finalThrow, hraw, hclean]
  have hcalls : (generateExcelEditCode unwrapJson outcome).calls = 9 := by
    unfold generateExcelEditCode
    have h9 : maxRetries + 1 = 9 := rfl
    rw [h9]
    exact hc
  refine ⟨hcalls, ?_, ?_, ?_, by decide⟩
  · intro hov
    rw [hres]
    unfold classifyFinal
    rw [if_pos hov]
  · intro hov hq
    rw [hres]
    unfold classifyFinal
    rw [if_neg (by simp [hov]), if_pos hq]
  · intro hov hq
    rw [hres]
    unfold classifyFinal
    rw [if_neg (by simp [hov]), if_neg (by simp [hq])]

/-- C6 amended witness: all nine calls fail with a 503 message; the loop
makes exactly nine calls and throws the overload-specific message. -/
theorem claim_C6_amended_witness :
    (generateExcelEditCode (fun _ => none)
      (fun _ => .failure ⟨none, none, "503"⟩)).calls = 9 ∧
    (generateExcelEditCode (fun _ => none)
      (fun _ => .failure ⟨none, none, "503"⟩)).result
      = .error overloadMsg := by
  have h := claim_C6_amended (fun _ => none)
    (fun _ => .failure ⟨none, none, "503"⟩) (fun _ => ⟨none, none, "503"⟩)
    (fun j _ => ⟨rfl, show isRetryable ⟨none, none, "503"⟩ = true by decide⟩)
    (by decide) (by decide)
  exact ⟨h.1, h.2.1 (by decide)⟩

/-- The backtick character, extracted from a one-character string. -/
def backtickChar : Char := ("`".data).headD ' '

/-- Leftmost-match boundary lemma: when the first character of the needle does
not occur in `pre`, the first occurrence of the needle in
`pre ++ needle ++ rest` is exactly at index `pre.length`. -/
theorem firstIdxAux_boundary (nt rest : List Char) (c : Char) :
    ∀ (pre : List Char) (i : Nat), c ∉ pre →
      firstIdxAux (c :: nt) (pre ++ ((c :: nt) ++ rest)) i
        = some (i + pre.length) := by
  intro pre
  induction pre with
  | nil =>
    intro i _
    have hp : (c :: nt).isPrefixOf ((c :: nt) ++ rest) = true := by
      rw [List.isPrefixOf_iff_prefix]
      exact List.prefix_append _ _
    simp [firstIdxAux, hp]
  | cons p ps ih =>
    intro i hpre
    have hcp : ¬ c = p := fun hh =>
      hpre (by rw [hh]; exact List.mem_cons_self p ps)
    have hps : c ∉ ps := fun hh => hpre (List.mem_cons_of_mem p hh)
    have hnp : (c :: nt).isPrefixOf
        (p :: (ps ++ ((c :: nt) ++ rest))) = false := by
      simp [List.isPrefixOf, hcp]
    rw [List.cons_append]
    simp only [firstIdxAux, hnp, Bool.false_eq_true, if_false]
    rw [ih (i + 1) hps]
    congr 1
    simp only [List.length_cons]
    omega

/-- C7 counterexample: the text `"```python```abc"` contains a python-tagged
fenced block (with empty content), yet the returned script is not that
trimmed content of that block — the JavaScript truthiness test on the captured
group sends an empty group to the strip-all fallback, which returns
`"abc"`. -/
theorem claim_C7_counterexample :
    extractPythonBlock "```python```abc" = some "" ∧
    extractCode "```python```abc" = "abc" ∧
    ("abc" : String) ≠ trimStr "" :=
  ⟨rfl, rfl, by decide⟩

/-- C7 (amended): when the response contains a python-tagged fenced block
whose content is non-empty (and the opening marker is the first backtick in
the text, the content being backtick-free), the returned script is that
content of that first block with the fence markers excluded and whitespace
trimmed; when no python-tagged marker occurs at all, or the first-block
content is empty, the returned script is the full text with all fence
markers stripped and then trimmed. -/
theorem claim_C7_amended :
    (∀ pre mid post : List Char,
      backtickChar ∉ pre → backtickChar ∉ mid → mid ≠ [] →
      extractCode
        (String.mk (pre ++ (pythonFence ++ (mid ++ (bareFence ++ post)))))
        = trimStr (String.mk mid)) ∧
    (∀ text : String, containsSub (String.mk pythonFence) text = false →
      extractCode text = stripFences text) ∧
    (∀ text : String, extractPythonBlock text = some "" →
      extractCode text = stripFences text) := by
  refine ⟨?_, ?_, ?_⟩
  · intro pre mid post hpre hmid hne
    have hpf : pythonFence = backtickChar :: "``python".data := rfl
    have hbf : bareFence = backtickChar :: "``".data := rfl
    have h1 : firstIdx pythonFence
        (pre ++ (pythonFence ++ (mid ++ (bareFence ++ post))))
        = some pre.length := by
      rw [hpf]
      have hb := firstIdxAux_boundary "``python".data
        (mid ++ (bareFence ++ post)) backtickChar pre 0 hpre
      simpa [firstIdx] using hb
    have hdrop : (pre ++ (pythonFence ++ (mid ++ (bareFence ++ post)))).drop
        (pre.length + pythonFence.length) = mid ++ (bareFence ++ post) := by
      rw [← List.append_assoc pre pythonFence, ← List.length_append]
      exact List.drop_left _ _
    have h2 : firstIdx bareFence (mid ++ (bareFence ++ post))
        = some mid.length := by
      rw [hbf]
      have hb := firstIdxAux_boundary "``".data post backtickChar mid 0 hmid
      simpa [firstIdx] using hb
    have htake : (mid ++ (bareFence ++ post)).take mid.length = mid :=
      List.take_left _ _
    have hblock : extractPythonBlock
        (String.mk (pre ++ (pythonFence ++ (mid ++ (bareFence ++ post)))))
        = some (String.mk mid) := by
      unfold extractPythonBlock
      simp only [h1, hdrop, h2, htake]
    unfold extractCode
    rw [hblock]
    have hne2 : ¬ (String.mk mid = "") := by
      intro hmk
      apply hne
      simpa using congrArg String.data hmk
    simp [hne2]
  · intro text hc
    have hnone : firstIdx pythonFence text.data = none := by
      unfold containsSub at hc
      rw [show (String.mk pythonFence).data = pythonFence from rfl] at hc
      cases hidx : firstIdx pythonFence text.data with
      | none => rfl
      | some v =>
        rw [hidx] at hc
        simp at hc
    unfold extractCode extractPythonBlock
    rw [hnone]
  · intro text hsome
    unfold extractCode
    rw [hsome]
    simp

/-- C7 amended witness: a fenced block inside surrounding prose is
extracted and trimmed; marker-free text falls back to strip-and-trim; a
block with empty content falls back as well. -/
theorem claim_C7_amended_witness :
    extractCode
      (String.mk ("x: ".data ++ (pythonFence ++
        (" print(1) ".data ++ (bareFence ++ "end".data)))))
      = trimStr (String.mk " print(1) ".data) ∧
    extractCode "hello" = stripFences "hello" ∧
    extractCode "```python```abc" = stripFences "```python```abc" := by
  refine ⟨?_, ?_, ?_⟩
  · exact claim_C7_amended.1 "x: ".data " print(1) ".data "end".data
      (by decide) (by decide) (by decide)
  · exact claim_C7_amended.2.1 "hello" (by decide)
  · exact claim_C7_amended.2.2 "```python```abc" rfl

end ExcelAutoPilot
